import Mathlib

/-!
Shallow embedding of `src/webrtc/api/video_codecs/video_encoder.h`:
the `EncodedImageCallback::Result` value type, the `VideoEncoder::QpThresholds`
and `VideoEncoder::ScalingSettings` value types, and the default
(non-overridden) bodies of `VideoEncoder::SetRates`,
`VideoEncoder::SetRateAllocation`, `VideoEncoder::GetScalingSettings` and
`VideoEncoder::SetPeriodicKeyFrames`.
-/

namespace Webrtc

/-- Embeds `EncodedImageCallback::Result::Error`: `OK` or `ERROR_SEND_FAILED`. -/
inductive Error where
  | OK
  | ERROR_SEND_FAILED
deriving DecidableEq, Repr

/-- Embeds `EncodedImageCallback::Result`. `frame_id` is a `uint32_t` with
in-class initializer `0` (modelled as `Nat`; the constructors only copy their
argument, no arithmetic occurs); `drop_next_frame` has in-class initializer
`false`. -/
structure Result where
  error : Error
  frame_id : Nat
  drop_next_frame : Bool
deriving DecidableEq, Repr

/-- Embeds the one-argument constructor `Result(Error error)`: only `error` is
set explicitly; `frame_id` and `drop_next_frame` keep their in-class
initializers `0` and `false`. -/
def Result.ofError (error : Error) : Result :=
  ⟨error, 0, false⟩

/-- Embeds the two-argument constructor `Result(Error error, uint32_t
frame_id)`: it stores the given `frame_id` unconditionally, whatever `error`
is; `drop_next_frame` keeps its in-class initializer `false`. -/
def Result.ofErrorFrameId (error : Error) (frame_id : Nat) : Result :=
  ⟨error, frame_id, false⟩

/-- Embeds `VideoEncoder::QpThresholds`: a pair of `int` quantization-parameter
bounds. The two-argument constructor `QpThresholds(int l, int h)` is the
anonymous constructor `QpThresholds.mk`. -/
structure QpThresholds where
  low : Int
  high : Int
deriving DecidableEq, Repr

/-- Embeds the zero-argument constructor `QpThresholds()`, which initializes
both bounds to the `-1` sentinel. -/
def QpThresholds.unset : QpThresholds :=
  ⟨-1, -1⟩

/-- Embeds `VideoEncoder::ScalingSettings`: a `const bool enabled` and a
`const rtc::Optional<QpThresholds> thresholds`. -/
structure ScalingSettings where
  enabled : Bool
  thresholds : Option QpThresholds
deriving DecidableEq, Repr

/-- Embeds the three-argument constructor `ScalingSettings(bool on, int low,
int high)`: `enabled` becomes `on` and `thresholds` becomes an engaged
optional holding `QpThresholds(low, high)`. -/
def ScalingSettings.ofOnLowHigh (on_ : Bool) (low high : Int) : ScalingSettings :=
  ⟨on_, some ⟨low, high⟩⟩

/-- Embeds the one-argument constructor `explicit ScalingSettings(bool on)`:
`enabled` becomes `on` and `thresholds` is left disengaged. -/
def ScalingSettings.ofOn (on_ : Bool) : ScalingSettings :=
  ⟨on_, none⟩

/-- Outcome of the base `VideoEncoder::SetRates` body: `notreached` records
that `RTC_NOTREACHED()` was executed (an assertion-style contract violation
that aborts in debug builds and is a no-op in release builds), and `status` is
the returned `int32_t`. -/
structure SetRatesOutcome where
  notreached : Bool
  status : Int
deriving DecidableEq, Repr

/-- Embeds the base (non-overridden) `VideoEncoder::SetRates(uint32_t bitrate,
uint32_t framerate)`: its body executes `RTC_NOTREACHED()` and then
`return -1;` for every input. -/
def VideoEncoder.SetRates (bitrate framerate : Nat) : SetRatesOutcome :=
  ⟨true, -1⟩

/-- Modelled from the spec: `BitrateAllocation` is declared in
`webrtc/common_types.h`, which is not part of this repository snapshot. The
spec describes it as a per-layer/per-stream bitrate breakdown plus a derived
total, with the invariant that the total equals the sum of all layer
allocations. -/
structure BitrateAllocation where
  layers : List Nat
deriving DecidableEq, Repr

/-- Modelled from the spec: the derived total returned by
`BitrateAllocation::get_sum_kbps()` equals the sum of all layer allocations. -/
def BitrateAllocation.get_sum_kbps (allocation : BitrateAllocation) : Nat :=
  allocation.layers.sum

/-- Embeds the default (non-overridden) `VideoEncoder::SetRateAllocation`:
its body is `return SetRates(allocation.get_sum_kbps(), framerate);`. Because
`SetRates` is virtual, the body is parameterized by the `SetRates`
implementation it dispatches to, with a polymorphic result type so the
arguments of the dispatched call are observable. -/
def VideoEncoder.SetRateAllocation {α : Type} (SetRates : Nat → Nat → α)
    (allocation : BitrateAllocation) (framerate : Nat) : α :=
  SetRates allocation.get_sum_kbps framerate

/-- Embeds the default (non-overridden) `VideoEncoder::GetScalingSettings()
const` as a state transformer over an arbitrary encoder state: being a `const`
member whose body is `return ScalingSettings(false);`, it returns that value
and leaves the encoder state unchanged. -/
def VideoEncoder.GetScalingSettings {Encoder : Type} (self : Encoder) :
    ScalingSettings × Encoder :=
  (ScalingSettings.ofOn false, self)

/-- Embeds the default (non-overridden) `VideoEncoder::SetPeriodicKeyFrames
(bool enable)`: its body is `return -1;`. -/
def VideoEncoder.SetPeriodicKeyFrames (enable : Bool) : Int :=
  -1

/-- C1: the default (non-overridden) `SetRateAllocation` calls `SetRates` with
the sum of all layer bitrates as the single bitrate argument and the given
framerate unchanged; in particular, for an allocation of layers 500 and 300
and framerate 30 it calls `SetRates(800, 30)`. -/
theorem setRateAllocation_default_delegates_to_sum :
    (∀ (α : Type) (SetRates : Nat → Nat → α) (allocation : BitrateAllocation)
        (framerate : Nat),
      VideoEncoder.SetRateAllocation SetRates allocation framerate
        = SetRates allocation.layers.sum framerate) ∧
    VideoEncoder.SetRateAllocation Prod.mk (BitrateAllocation.mk [500, 300]) 30
      = (800, 30) := by
  refine ⟨fun α S a f => rfl, ?_⟩
  rfl

/-- C2 counterexample: the two-argument constructor
`Result(ERROR_SEND_FAILED, 42)` yields a `Result` with
`error = ERROR_SEND_FAILED` and `frame_id = 42 ≠ 0`, refuting the claim that
every way of constructing a `Result` with `error = SEND_FAILED` yields
`frame_id = 0`. -/
theorem result_send_failed_nonzero_frame_id :
    (Result.ofErrorFrameId Error.ERROR_SEND_FAILED 42).error
        = Error.ERROR_SEND_FAILED ∧
    (Result.ofErrorFrameId Error.ERROR_SEND_FAILED 42).frame_id = 42 ∧
    (Result.ofErrorFrameId Error.ERROR_SEND_FAILED 42).frame_id ≠ 0 := by
  refine ⟨rfl, rfl, ?_⟩
  decide

/-- C2 amended: a `Result` built by the one-argument constructor with
`error = SEND_FAILED` has `frame_id = 0` (the default sentinel), while the
two-argument constructor stores whatever `frame_id` it is given, even when
`error = SEND_FAILED`; nothing in the constructors resets it. -/
theorem result_send_failed_frame_id_by_constructor (fid : Nat) :
    (Result.ofError Error.ERROR_SEND_FAILED).frame_id = 0 ∧
    (Result.ofErrorFrameId Error.ERROR_SEND_FAILED fid).frame_id = fid := by
  exact ⟨rfl, rfl⟩

/-- C3: for every bitrate and framerate, the base (non-overridden) `SetRates`
executes `RTC_NOTREACHED()` (an assertion-style contract violation in debug
builds) and returns `-1`, a negative status; it never returns success. -/
theorem setRates_base_fails_loudly (bitrate framerate : Nat) :
    (VideoEncoder.SetRates bitrate framerate).notreached = true ∧
    (VideoEncoder.SetRates bitrate framerate).status = -1 ∧
    (VideoEncoder.SetRates bitrate framerate).status < 0 := by
  refine ⟨rfl, rfl, ?_⟩
  show (-1 : Int) < 0
  decide

/-- C4: for every pair of integers `low` and `high`,
`ScalingSettings(true, low, high)` has `enabled = true` and thresholds present
and equal to `QpThresholds(low, high)`; in particular
`ScalingSettings(true, 20, 50)` yields `enabled = true` and
thresholds `(20, 50)`. -/
theorem scalingSettings_qp_roundtrip (low high : Int) :
    (ScalingSettings.ofOnLowHigh true low high).enabled = true ∧
    (ScalingSettings.ofOnLowHigh true low high).thresholds
        = some (QpThresholds.mk low high) ∧
    (ScalingSettings.ofOnLowHigh true 20 50).enabled = true ∧
    (ScalingSettings.ofOnLowHigh true 20 50).thresholds
        = some (QpThresholds.mk 20 50) := by
  exact ⟨rfl, rfl, rfl, rfl⟩

/-- C5 counterexample: `ScalingSettings(true, 50, 20)` has thresholds present
and equal to `(50, 20)`, which violates `low ≤ high` and is not the
`(-1, -1)` sentinel, refuting the claim that every value produced by the
three-argument constructor satisfies the invariant. -/
theorem scalingSettings_invariant_refuted :
    (ScalingSettings.ofOnLowHigh true 50 20).thresholds
        = some (QpThresholds.mk 50 20) ∧
    ¬ (QpThresholds.mk 50 20).low ≤ (QpThresholds.mk 50 20).high ∧
    ¬ ((QpThresholds.mk 50 20).low = -1 ∧ (QpThresholds.mk 50 20).high = -1) := by
  refine ⟨rfl, ?_, ?_⟩ <;> decide

/-- C5 amended: the three-argument constructor enforces no ordering invariant:
it stores the given `enabled` flag and the given `(low, high)` pair unchanged,
so the stored thresholds satisfy `low ≤ high` exactly when the arguments do. -/
theorem scalingSettings_ctor_stores_pair_unchanged (on_ : Bool) (low high : Int) :
    (ScalingSettings.ofOnLowHigh on_ low high).enabled = on_ ∧
    (ScalingSettings.ofOnLowHigh on_ low high).thresholds
        = some (QpThresholds.mk low high) := by
  exact ⟨rfl, rfl⟩

/-- C6: the default (non-overridden) `GetScalingSettings` returns scaling
disabled, a `ScalingSettings` with `enabled = false` and no thresholds, and
leaves the encoder state unchanged (no side effects). -/
theorem getScalingSettings_default_disabled (Encoder : Type) (e : Encoder) :
    VideoEncoder.GetScalingSettings e = (ScalingSettings.ofOn false, e) ∧
    (VideoEncoder.GetScalingSettings e).1.enabled = false ∧
    (VideoEncoder.GetScalingSettings e).1.thresholds = none := by
  exact ⟨rfl, rfl, rfl⟩

/-- C7: the default `GetScalingSettings` is referentially stable: two
consecutive calls on the same encoder return the same result, and indeed the
default implementation returns an identical value from every encoder state. -/
theorem getScalingSettings_default_stable (Encoder : Type) (e e' : Encoder) :
    (VideoEncoder.GetScalingSettings
        ((VideoEncoder.GetScalingSettings e).2) : ScalingSettings × Encoder).1
      = (VideoEncoder.GetScalingSettings e).1 ∧
    (VideoEncoder.GetScalingSettings e).1
      = (VideoEncoder.GetScalingSettings e').1 := by
  exact ⟨rfl, rfl⟩

/-- C8: for every boolean argument, the default `SetPeriodicKeyFrames` returns
`-1`, a negative (failure) status. -/
theorem setPeriodicKeyFrames_default_unsupported (enable : Bool) :
    VideoEncoder.SetPeriodicKeyFrames enable = -1 ∧
    VideoEncoder.SetPeriodicKeyFrames enable < 0 := by
  refine ⟨rfl, ?_⟩
  show (-1 : Int) < 0
  decide

/-- C9: both `Result` constructors leave `drop_next_frame` at its `false`
default, for every error value and frame id; no constructor sets the hint. -/
theorem result_ctor_drop_next_frame_false (error : Error) (fid : Nat) :
    (Result.ofError error).drop_next_frame = false ∧
    (Result.ofErrorFrameId error fid).drop_next_frame = false := by
  exact ⟨rfl, rfl⟩

/-- C10: for every boolean, the one-argument `ScalingSettings` constructor
leaves thresholds absent, while the three-argument constructor with `-1, -1`
stores the engaged `(-1, -1)` sentinel; the two states are distinct. -/
theorem scalingSettings_absent_vs_sentinel (on_ : Bool) :
    (ScalingSettings.ofOn on_).thresholds = none ∧
    (ScalingSettings.ofOnLowHigh on_ (-1) (-1)).thresholds
        = some (QpThresholds.mk (-1) (-1)) ∧
    (ScalingSettings.ofOn on_).thresholds
        ≠ (ScalingSettings.ofOnLowHigh on_ (-1) (-1)).thresholds := by
  refine ⟨rfl, rfl, ?_⟩
  simp [ScalingSettings.ofOn, ScalingSettings.ofOnLowHigh]

end Webrtc
